import Mathlib

/-!
Verification of the 2D polygon geometry and transform engine of the
`cad-engine` repository: the `GeometryJS` reference backend
(`geometry-js.ts`), the dual-backend SDK facade (`index.ts`), and the
canvas interaction handlers (hit testing, select/scale drag logic).

Numbers are modelled as real numbers (the source uses IEEE doubles;
we verify the ideal real-arithmetic semantics of the same formulas).
-/

noncomputable section

namespace Cad

/-- Type `Point` — `x`/`y` floats, from `types.ts`. -/
structure Point where
  x : ℝ
  y : ℝ

instance : Inhabited Point := ⟨⟨0, 0⟩⟩

theorem Point.ext_xy (p q : Point) (hx : p.x = q.x) (hy : p.y = q.y) : p = q := by
  cases p; cases q; cases hx; cases hy; rfl

/-- Type `Polygon` — ordered vertex list, from `types.ts`. -/
structure Polygon where
  vertices : List Point

/-- Type `Matrix` — affine transform with fields `m11, m12, m21, m22, dx, dy` and
application `x' = m11*x + m12*y + dx, y' = m21*x + m22*y + dy`, from `types.ts`. -/
structure Matrix where
  m11 : ℝ
  m12 : ℝ
  m21 : ℝ
  m22 : ℝ
  dx : ℝ
  dy : ℝ

/-- Type `TransformOptions` — optional translate/rotate/scale, from `types.ts`. -/
structure TransformOptions where
  translate : Option Point := none
  rotate : Option ℝ := none
  scale : Option Point := none

namespace GeometryJS

/-- Function `GeometryJS.area` from `geometry-js.ts`: returns 0 for fewer than 3
vertices, otherwise accumulates `x_i*y_j - x_j*y_i` for `j = (i+1) % n`
over all `i`, and returns the absolute value halved. -/
def area (polygon : Polygon) : ℝ :=
  if polygon.vertices.length < 3 then 0
  else
    let n := polygon.vertices.length
    let s := (List.range n).foldl
      (fun acc i =>
        let j := (i + 1) % n
        acc + (polygon.vertices.getD i default).x * (polygon.vertices.getD j default).y
            - (polygon.vertices.getD j default).x * (polygon.vertices.getD i default).y)
      0
    |s| / 2

/-- Function `GeometryJS.perimeter` from `geometry-js.ts`: returns 0 for fewer than 2
vertices, otherwise sums `sqrt(dx*dx + dy*dy)` over every edge `(i, (i+1) % n)`
including the wrap-around edge. -/
def perimeter (polygon : Polygon) : ℝ :=
  if polygon.vertices.length < 2 then 0
  else
    let n := polygon.vertices.length
    (List.range n).foldl
      (fun acc i =>
        let j := (i + 1) % n
        let dx := (polygon.vertices.getD j default).x - (polygon.vertices.getD i default).x
        let dy := (polygon.vertices.getD j default).y - (polygon.vertices.getD i default).y
        acc + Real.sqrt (dx * dx + dy * dy))
      0

/-- Function `GeometryJS.centroid` from `geometry-js.ts`: arithmetic mean of the
vertex coordinates, `{0,0}` for the empty polygon. -/
def centroid (polygon : Polygon) : Point :=
  if polygon.vertices.length = 0 then ⟨0, 0⟩
  else
    ⟨(polygon.vertices.foldl (fun cx v => cx + v.x) 0) / polygon.vertices.length,
     (polygon.vertices.foldl (fun cy v => cy + v.y) 0) / polygon.vertices.length⟩

/-- Function `GeometryJS.createMatrix` from `geometry-js.ts`: starts from the identity,
writes `dx,dy` from `translate`, multiplies `m11` and `m22` by the scale
factors, then (if `rotate` is given) replaces the linear part by
`newM11 = m11*cos - m12*sin`, `newM12 = m11*sin + m12*cos`,
`newM21 = m21*cos - m22*sin`, `newM22 = m21*sin + m22*cos`. -/
def createMatrix (options : TransformOptions) : Matrix :=
  let m0 : Matrix := ⟨1, 0, 0, 1, 0, 0⟩
  let m1 : Matrix :=
    match options.translate with
    | some t => { m0 with dx := t.x, dy := t.y }
    | none => m0
  let m2 : Matrix :=
    match options.scale with
    | some s => { m1 with m11 := m1.m11 * s.x, m22 := m1.m22 * s.y }
    | none => m1
  match options.rotate with
  | some angle =>
    let c := Real.cos angle
    let s := Real.sin angle
    { m2 with
      m11 := m2.m11 * c - m2.m12 * s
      m12 := m2.m11 * s + m2.m12 * c
      m21 := m2.m21 * c - m2.m22 * s
      m22 := m2.m21 * s + m2.m22 * c }
  | none => m2

/-- Function `GeometryJS.transform` from `geometry-js.ts`: maps every vertex through
the affine matrix. -/
def transform (polygon : Polygon) (matrix : Matrix) : Polygon :=
  ⟨polygon.vertices.map fun v =>
    ⟨matrix.m11 * v.x + matrix.m12 * v.y + matrix.dx,
     matrix.m21 * v.x + matrix.m22 * v.y + matrix.dy⟩⟩

/-- Function `GeometryJS.createSquare` from `geometry-js.ts`: corner-anchored square. -/
def createSquare (size : ℝ) : Polygon :=
  ⟨[⟨0, 0⟩, ⟨size, 0⟩, ⟨size, size⟩, ⟨0, size⟩]⟩

/-- Function `GeometryJS.createTriangle` from `geometry-js.ts`. -/
def createTriangle (base height : ℝ) : Polygon :=
  ⟨[⟨0, 0⟩, ⟨base, 0⟩, ⟨base / 2, height⟩]⟩

end GeometryJS

/-- Shoelace area exactly as the specification words it:
`|Σ (x_i·y_{i+1} - x_{i+1}·y_i)| / 2` with indices mod `N`. -/
def shoelaceSpec (polygon : Polygon) : ℝ :=
  let n := polygon.vertices.length
  |∑ i ∈ Finset.range n,
      ((polygon.vertices.getD i default).x * (polygon.vertices.getD ((i + 1) % n) default).y
        - (polygon.vertices.getD ((i + 1) % n) default).x * (polygon.vertices.getD i default).y)| / 2

/-- Folding `acc + g i` over `List.range n` is the `Finset.range` sum. -/
theorem foldl_range_add (g : ℕ → ℝ) (n : ℕ) (a : ℝ) :
    (List.range n).foldl (fun acc i => acc + g i) a = a + ∑ i ∈ Finset.range n, g i := by
  induction n generalizing a with
  | zero => simp
  | succ n ih =>
      rw [List.range_succ, List.foldl_append, ih, Finset.sum_range_succ]
      simp [add_assoc]

/-- Folding `acc + f i - g i` over `List.range n` is the sum of differences. -/
theorem foldl_range_add_sub (f g : ℕ → ℝ) (n : ℕ) (a : ℝ) :
    (List.range n).foldl (fun acc i => acc + f i - g i) a
      = a + ∑ i ∈ Finset.range n, (f i - g i) := by
  induction n generalizing a with
  | zero => simp
  | succ n ih =>
      rw [List.range_succ, List.foldl_append, ih, Finset.sum_range_succ]
      simp; ring

/-! ## Dual-backend SDK facade (`typescript-sdk/src/index.ts`)

The loaded WASM module (`wasmModule`) is a dynamic object; the facade calls
`calculate_area`, `calculate_perimeter`, `calculate_centroid`,
`transform_polygon`, `create_square` and `create_triangle` on it, each of
which may throw. We model the module surface as a record of
`Except`-returning functions (the extra `create_matrix` / `create_circle` /
`create_rectangle` fields stand for backend entry points the facade could
consult for the remaining constructors), and the module-level mutable
`wasmModule : any | null` as an explicit `Option` argument threaded into
every facade function. -/

/-- The performance (WASM) backend surface as seen by `index.ts`. -/
structure WasmBackend where
  calculate_area : Polygon → Except String ℝ
  calculate_perimeter : Polygon → Except String ℝ
  calculate_centroid : Polygon → Except String Point
  transform_polygon : Polygon → Matrix → Except String Polygon
  create_square : ℝ → Except String Polygon
  create_triangle : ℝ → ℝ → Except String Polygon
  create_matrix : TransformOptions → Except String Matrix
  create_circle : Point → ℝ → ℕ → Except String Polygon
  create_rectangle : ℝ → ℝ → Except String Polygon

namespace CadSdk

/-- Facade `area` from `index.ts`: if the WASM module is loaded, try
`calculate_area`; on a thrown error (or with no module) use `GeometryJS.area`. -/
def area (wasmModule : Option WasmBackend) (polygon : Polygon) : ℝ :=
  match wasmModule with
  | some m =>
    match m.calculate_area polygon with
    | .ok v => v
    | .error _ => GeometryJS.area polygon
  | none => GeometryJS.area polygon

/-- Facade `perimeter` from `index.ts`. -/
def perimeter (wasmModule : Option WasmBackend) (polygon : Polygon) : ℝ :=
  match wasmModule with
  | some m =>
    match m.calculate_perimeter polygon with
    | .ok v => v
    | .error _ => GeometryJS.perimeter polygon
  | none => GeometryJS.perimeter polygon

/-- Facade `centroid` from `index.ts`. -/
def centroid (wasmModule : Option WasmBackend) (polygon : Polygon) : Point :=
  match wasmModule with
  | some m =>
    match m.calculate_centroid polygon with
    | .ok v => v
    | .error _ => GeometryJS.centroid polygon
  | none => GeometryJS.centroid polygon

/-- Facade `transform` from `index.ts`. -/
def transform (wasmModule : Option WasmBackend) (polygon : Polygon) (matrix : Matrix) :
    Polygon :=
  match wasmModule with
  | some m =>
    match m.transform_polygon polygon matrix with
    | .ok v => v
    | .error _ => GeometryJS.transform polygon matrix
  | none => GeometryJS.transform polygon matrix

/-- Facade `createMatrix` from `index.ts`: delegates directly to
`GeometryJS.createMatrix`, never consulting the WASM module. The
`wasmModule` argument models the module state visible to the function. -/
def createMatrix (_wasmModule : Option WasmBackend) (options : TransformOptions) : Matrix :=
  GeometryJS.createMatrix options

/-- Facade `createSquare` from `index.ts`. -/
def createSquare (wasmModule : Option WasmBackend) (size : ℝ) : Polygon :=
  match wasmModule with
  | some m =>
    match m.create_square size with
    | .ok v => v
    | .error _ => GeometryJS.createSquare size
  | none => GeometryJS.createSquare size

/-- Facade `createTriangle` from `index.ts`. -/
def createTriangle (wasmModule : Option WasmBackend) (base height : ℝ) : Polygon :=
  match wasmModule with
  | some m =>
    match m.create_triangle base height with
    | .ok v => v
    | .error _ => GeometryJS.createTriangle base height
  | none => GeometryJS.createTriangle base height

/-- Facade `createCircle` from `index.ts`: a pure loop placing `segments`
vertices at angle steps of `2π/segments`; never consults the WASM module. -/
def createCircle (_wasmModule : Option WasmBackend) (center : Point) (radius : ℝ)
    (segments : ℕ) : Polygon :=
  let angleStep := 2 * Real.pi / segments
  ⟨(List.range segments).map fun i =>
    let angle := i * angleStep
    ⟨center.x + radius * Real.cos angle, center.y + radius * Real.sin angle⟩⟩

/-- Facade `createRectangle` from `index.ts`: a pure vertex list; never
consults the WASM module. -/
def createRectangle (_wasmModule : Option WasmBackend) (width height : ℝ) : Polygon :=
  ⟨[⟨0, 0⟩, ⟨width, 0⟩, ⟨width, height⟩, ⟨0, height⟩]⟩

end CadSdk

/-! ## Canvas interaction (`react-demo` `Canvas` component) -/

/-- Function `isPointInPolygon` from the canvas component: even-odd ray casting.
Iterates `i` from `0` to `n-1` with `j` the previous index (`n-1` for `i=0`),
toggling `inside` when `(v_i.y > p.y) !== (v_j.y > p.y)` and
`p.x < (v_j.x - v_i.x)*(p.y - v_i.y)/(v_j.y - v_i.y) + v_i.x`. -/
def edgeCrosses (point vi vj : Point) : Bool :=
  decide ((vi.y > point.y) ≠ (vj.y > point.y)) &&
    decide (point.x < (vj.x - vi.x) * (point.y - vi.y) / (vj.y - vi.y) + vi.x)

/-- The previous-index function of the loop header
`for (i = 0, j = n - 1; i < n; j = i++)`. -/
def prevIdx (n i : ℕ) : ℕ := if i = 0 then n - 1 else i - 1

/-- The ray-casting loop itself. -/
def isPointInPolygon (point : Point) (vertices : List Point) : Bool :=
  (List.range vertices.length).foldl
    (fun inside i =>
      let vi := vertices.getD i default
      let vj := vertices.getD (prevIdx vertices.length i) default
      if edgeCrosses point vi vj then !inside else inside)
    false

/-- Number of edges `(i, j = i-1 mod N)` whose crossing condition holds:
the horizontal ray at `point.y` meets the edge between the endpoints'
y-extents and `point.x` is left of the edge's x-intersection. -/
def crossingCount (point : Point) (vertices : List Point) : ℕ :=
  ((List.range vertices.length).filter fun i =>
    edgeCrosses point (vertices.getD i default)
      (vertices.getD (prevIdx vertices.length i) default)).length

/-- Type `TransformParams` — translate, rotate and scale, owned by a shape. -/
structure TransformParams where
  translate : Point
  rotate : ℝ
  scale : Point

/-- The shape kinds handled by `getShapePolygon`. -/
inductive ShapeKind where
  | square
  | triangle
  | circle

/-- A canvas `Shape` as used by the component: kind, sizing fields and
transform. `base`, `height` and `radius` are optional in the source and
read through JavaScript `||`-defaults. -/
structure CanvasShape where
  kind : ShapeKind
  size : ℝ
  base : Option ℝ := none
  height : Option ℝ := none
  radius : Option ℝ := none
  transform : TransformParams

/-- JavaScript `v || d` for an optional numeric field: the default applies
when the field is absent or `0`. -/
def orDefault (o : Option ℝ) (d : ℝ) : ℝ :=
  match o with
  | none => d
  | some v => if v = 0 then d else v

/-- Function `getShapePolygon` from the canvas component: local-space vertices
(origin-centered square and triangle; 32-gon circle). -/
def getShapePolygon (shape : CanvasShape) : List Point :=
  match shape.kind with
  | .square =>
    let halfSize := shape.size / 2
    [⟨-halfSize, -halfSize⟩, ⟨halfSize, -halfSize⟩, ⟨halfSize, halfSize⟩, ⟨-halfSize, halfSize⟩]
  | .triangle =>
    let halfBase := orDefault shape.base 60 / 2
    let height := orDefault shape.height 40
    [⟨0, -height / 2⟩, ⟨-halfBase, height / 2⟩, ⟨halfBase, height / 2⟩]
  | .circle =>
    let radius := orDefault shape.radius 30
    (List.range 32).map fun i =>
      let angle := (i : ℝ) / 32 * (2 * Real.pi)
      ⟨Real.cos angle * radius, Real.sin angle * radius⟩

/-- Minimum of the x-coordinates. `getShapeBounds` folds `Math.min` starting
from `Infinity`; on the nonempty lists produced by `getShapePolygon` that
equals folding from the first element (the empty-list value is never used). -/
def minXOf (vs : List Point) : ℝ :=
  match vs with
  | [] => 0
  | v :: rest => rest.foldl (fun m w => min m w.x) v.x

/-- Minimum of the y-coordinates, as in `getShapeBounds`. -/
def minYOf (vs : List Point) : ℝ :=
  match vs with
  | [] => 0
  | v :: rest => rest.foldl (fun m w => min m w.y) v.y

/-- Maximum of the x-coordinates, as in `getShapeBounds`. -/
def maxXOf (vs : List Point) : ℝ :=
  match vs with
  | [] => 0
  | v :: rest => rest.foldl (fun m w => max m w.x) v.x

/-- Maximum of the y-coordinates, as in `getShapeBounds`. -/
def maxYOf (vs : List Point) : ℝ :=
  match vs with
  | [] => 0
  | v :: rest => rest.foldl (fun m w => max m w.y) v.y

/-- Scale-then-rotate of the local polygon, as computed both in the
`shapePolygons` memo (before translating) and in the select branch of
`handleMouseMove`. -/
def scaledRotated (shape : CanvasShape) : List Point :=
  let base := getShapePolygon shape
  let scaled := base.map fun v =>
    (⟨v.x * shape.transform.scale.x, v.y * shape.transform.scale.y⟩ : Point)
  let c := Real.cos shape.transform.rotate
  let s := Real.sin shape.transform.rotate
  scaled.map fun v => (⟨v.x * c - v.y * s, v.x * s + v.y * c⟩ : Point)

/-- World-space polygon of a shape (`shapePolygons` memo): scale, rotate,
then add the translate. -/
def worldPolygon (shape : CanvasShape) : List Point :=
  let base := getShapePolygon shape
  let scaled := base.map fun v =>
    (⟨v.x * shape.transform.scale.x, v.y * shape.transform.scale.y⟩ : Point)
  let c := Real.cos shape.transform.rotate
  let s := Real.sin shape.transform.rotate
  scaled.map fun v =>
    (⟨v.x * c - v.y * s + shape.transform.translate.x,
      v.x * s + v.y * c + shape.transform.translate.y⟩ : Point)

/-- The select branch of `handleMouseMove`: candidate translate
`pointer - dragStart`, clamped with `margin = 10` against the canvas size
minus the rotated-scaled bounding-box extent. -/
def selectMoveUpdate (shape : CanvasShape) (canvasWidth canvasHeight : ℝ)
    (pointer dragStart : Point) : TransformParams :=
  let rotated := scaledRotated shape
  let shapeWidth := maxXOf rotated - minXOf rotated
  let shapeHeight := maxYOf rotated - minYOf rotated
  let margin : ℝ := 10
  let newX := max margin (min (canvasWidth - shapeWidth - margin) (pointer.x - dragStart.x))
  let newY := max margin (min (canvasHeight - shapeHeight - margin) (pointer.y - dragStart.y))
  { shape.transform with translate := ⟨newX, newY⟩ }

/-- The `initialScaleDistance` capture in `handleMouseDown` (scale tool):
distance from the pointer-down position to the shape's translate point. -/
def initialScaleDistance (downPos center : Point) : ℝ :=
  Real.sqrt ((downPos.x - center.x) ^ 2 + (downPos.y - center.y) ^ 2)

/-- The scale branch of `handleMouseMove`: current pointer distance from the
translate point, reference distance `initialScaleDistance.current || 30`,
factor clamped to `[0.1, 5.0]` and written to both scale axes. -/
def scaleMoveUpdate (t : TransformParams) (pointer : Point) (initDist : ℝ) :
    TransformParams :=
  let currentDistance :=
    Real.sqrt ((pointer.x - t.translate.x) ^ 2 + (pointer.y - t.translate.y) ^ 2)
  let initialDistance := if initDist = 0 then 30 else initDist
  let scaleFactor := max 0.1 (min 5.0 (currentDistance / initialDistance))
  { t with scale := ⟨scaleFactor, scaleFactor⟩ }

/-- Matrix composition as the specification describes it for the round-trip
property: `compose M2 M1` applies `M1` first, then `M2` — linear parts
multiplied, `M1`'s translation mapped through `M2`. -/
def compose (m2 m1 : Matrix) : Matrix :=
  { m11 := m2.m11 * m1.m11 + m2.m12 * m1.m21
    m12 := m2.m11 * m1.m12 + m2.m12 * m1.m22
    m21 := m2.m21 * m1.m11 + m2.m22 * m1.m21
    m22 := m2.m21 * m1.m12 + m2.m22 * m1.m22
    dx := m2.m11 * m1.dx + m2.m12 * m1.dy + m2.dx
    dy := m2.m21 * m1.dx + m2.m22 * m1.dy + m2.dy }

/-! ## Helper lemmas -/

/-- Composing two affine vertex maps is applying the composed matrix. -/
theorem transform_transform (p : Polygon) (m1 m2 : Matrix) :
    GeometryJS.transform (GeometryJS.transform p m1) m2
      = GeometryJS.transform p (compose m2 m1) := by
  unfold GeometryJS.transform compose
  refine congrArg Polygon.mk ?_
  rw [List.map_map]
  refine List.map_congr_left fun v _ => ?_
  refine Point.ext_xy _ _ ?_ ?_ <;> simp <;> ring

/-- A fold that conditionally negates the accumulator computes the parity of
the number of elements satisfying the condition. -/
theorem foldl_toggle (cond : ℕ → Bool) (l : List ℕ) (b : Bool) :
    l.foldl (fun inside i => if cond i then !inside else inside) b
      = xor b (decide (Odd (l.filter cond).length)) := by
  induction l generalizing b with
  | nil => simp
  | cons x xs ih =>
    rw [List.foldl_cons]
    by_cases h : cond x
    · rw [if_pos h, ih, List.filter_cons_of_pos h, List.length_cons,
        show decide (Odd ((xs.filter cond).length + 1))
            = !decide (Odd (xs.filter cond).length) from by
          simp only [Nat.odd_add_one, ← Nat.not_odd_iff_even, decide_not]]
      cases b <;> cases hd : decide (Odd (xs.filter cond).length) <;> simp
    · rw [if_neg h, ih, List.filter_cons_of_neg h]

/-- The ray-crossing condition of `isPointInPolygon` is symmetric in the two
edge endpoints: both traversal directions of the same segment either cross
or do not cross the horizontal ray. -/
theorem edgeCrosses_symm (p a b : Point) : edgeCrosses p a b = edgeCrosses p b a := by
  unfold edgeCrosses
  have hfst : decide ((a.y > p.y) ≠ (b.y > p.y)) = decide ((b.y > p.y) ≠ (a.y > p.y)) := by
    rw [decide_eq_decide]
    exact ne_comm
  by_cases hy : a.y = b.y
  · rw [hy]
    simp
  · have h1 : b.y - a.y ≠ 0 := sub_ne_zero.mpr (Ne.symm hy)
    have h2 : a.y - b.y ≠ 0 := sub_ne_zero.mpr hy
    have hx : (b.x - a.x) * (p.y - a.y) / (b.y - a.y) + a.x
        = (a.x - b.x) * (p.y - b.y) / (a.y - b.y) + b.x := by
      field_simp
      ring
    rw [hfst, hx]

/-- The toggling loop of `isPointInPolygon` computes the parity of the
crossing count. -/
theorem isPointInPolygon_eq_parity (p : Point) (vs : List Point) :
    isPointInPolygon p vs = decide (Odd (crossingCount p vs)) := by
  unfold isPointInPolygon crossingCount
  dsimp only
  rw [foldl_toggle]
  simp

/-! ## Claim theorems -/

/-- C1 (code bug evidence): `GeometryJS.perimeter` has no two-vertex special
case, so on `[(0,0),(1,0)]` it sums the edge and its wrap-around twin and
returns `2` — the repository's own test suite (`geometry.test.ts`,
"should handle two points") expects `1` for this polygon. -/
theorem perimeter_two_points_eq_two :
    GeometryJS.perimeter ⟨[⟨0, 0⟩, ⟨1, 0⟩]⟩ = 2 := by
  norm_num [GeometryJS.perimeter, List.range_succ, Real.sqrt_one]

/-- C2 (code bug evidence): for a pure rotation by `π/2`,
`GeometryJS.createMatrix` produces `m12 = sin(π/2) = 1` and
`m21 = -sin(π/2) = -1` — the transpose of the counter-clockwise rotation
matrix claimed by the spec and expected by the repository's own test
(`geometry.test.ts`, "should create rotation matrix": `m12 ≈ -1`, `m21 ≈ 1`). -/
theorem createMatrix_rotation_transposed :
    (GeometryJS.createMatrix ⟨none, some (Real.pi / 2), none⟩).m12 = 1 ∧
    (GeometryJS.createMatrix ⟨none, some (Real.pi / 2), none⟩).m21 = -1 := by
  constructor <;>
    norm_num [GeometryJS.createMatrix, Real.sin_pi_div_two, Real.cos_pi_div_two]

/-- C3: `GeometryJS.area` returns `0` for polygons with fewer than 3
vertices, and for 3 or more vertices returns the shoelace value
`|Σ (x_i·y_{i+1} - x_{i+1}·y_i)| / 2` with indices taken mod `N`. -/
theorem area_eq_shoelace (p : Polygon) :
    (p.vertices.length < 3 → GeometryJS.area p = 0) ∧
    (3 ≤ p.vertices.length → GeometryJS.area p = shoelaceSpec p) := by
  constructor
  · intro h
    simp [GeometryJS.area, h]
  · intro h
    rw [GeometryJS.area, if_neg (not_lt.mpr h), shoelaceSpec]
    dsimp only
    rw [foldl_range_add_sub, zero_add]

/-- C3 witness: the theorem applied to a concrete triangle and to a
single-vertex polygon. -/
theorem area_eq_shoelace_witness :
    GeometryJS.area ⟨[⟨0, 0⟩, ⟨4, 0⟩, ⟨2, 3⟩]⟩ = shoelaceSpec ⟨[⟨0, 0⟩, ⟨4, 0⟩, ⟨2, 3⟩]⟩ ∧
    GeometryJS.area ⟨[⟨7, 7⟩]⟩ = 0 :=
  ⟨(area_eq_shoelace ⟨[⟨0, 0⟩, ⟨4, 0⟩, ⟨2, 3⟩]⟩).2 (by simp),
   (area_eq_shoelace ⟨[⟨7, 7⟩]⟩).1 (by simp)⟩

/-- C7: transforming by `M1` and then by `M2` — both built with
`GeometryJS.createMatrix` — equals a single transform by `compose M2 M1`
(linear parts multiplied, `M1`'s translation mapped through `M2`), exactly,
hence in particular within any floating tolerance. -/
theorem transform_roundtrip (p : Polygon) (o1 o2 : TransformOptions) :
    GeometryJS.transform (GeometryJS.transform p (GeometryJS.createMatrix o1))
        (GeometryJS.createMatrix o2)
      = GeometryJS.transform p
          (compose (GeometryJS.createMatrix o2) (GeometryJS.createMatrix o1)) :=
  transform_transform p (GeometryJS.createMatrix o1) (GeometryJS.createMatrix o2)

/-- A loaded backend every one of whose calls throws. -/
def failingBackend : WasmBackend where
  calculate_area _ := .error "boom"
  calculate_perimeter _ := .error "boom"
  calculate_centroid _ := .error "boom"
  transform_polygon _ _ := .error "boom"
  create_square _ := .error "boom"
  create_triangle _ _ := .error "boom"
  create_matrix _ := .error "boom"
  create_circle _ _ _ := .error "boom"
  create_rectangle _ _ := .error "boom"

/-- A loaded backend every one of whose calls succeeds, with results that
differ visibly from the reference implementation's. -/
def loudBackend : WasmBackend where
  calculate_area _ := .ok 42
  calculate_perimeter _ := .ok 42
  calculate_centroid _ := .ok ⟨42, 42⟩
  transform_polygon _ _ := .ok ⟨[⟨42, 42⟩]⟩
  create_square _ := .ok ⟨[⟨42, 42⟩]⟩
  create_triangle _ _ := .ok ⟨[⟨42, 42⟩]⟩
  create_matrix _ := .ok ⟨2, 0, 0, 2, 0, 0⟩
  create_circle _ _ _ := .ok ⟨[⟨42, 42⟩]⟩
  create_rectangle _ _ := .ok ⟨[⟨42, 42⟩]⟩

/-- C4: when the WASM backend is loaded and its `calculate_area` call throws,
the facade's `area` returns exactly `GeometryJS.area` on the same polygon
(the facade is a total function, so no exception reaches the caller). -/
theorem area_falls_back_on_throw (b : WasmBackend) (p : Polygon) (e : String)
    (h : b.calculate_area p = Except.error e) :
    CadSdk.area (some b) p = GeometryJS.area p := by
  simp [CadSdk.area, h]

/-- C4 witness: the theorem applied to a backend whose `calculate_area`
always throws, on a concrete triangle. -/
theorem area_falls_back_on_throw_witness :
    CadSdk.area (some failingBackend) ⟨[⟨0, 0⟩, ⟨2, 0⟩, ⟨0, 2⟩]⟩
      = GeometryJS.area ⟨[⟨0, 0⟩, ⟨2, 0⟩, ⟨0, 2⟩]⟩ :=
  area_falls_back_on_throw failingBackend ⟨[⟨0, 0⟩, ⟨2, 0⟩, ⟨0, 2⟩]⟩ "boom" rfl

/-- C5 counterexample: with a loaded backend whose `create_matrix` succeeds
with a non-identity matrix, the facade's `createMatrix` on empty options
still returns the reference identity matrix — it never attempts the
performance path, contradicting the claim that every exposed function
(in particular `createMatrix`) tries the performance backend first. -/
theorem createMatrix_never_uses_backend :
    loudBackend.create_matrix ⟨none, none, none⟩ = Except.ok ⟨2, 0, 0, 2, 0, 0⟩ ∧
    CadSdk.createMatrix (some loudBackend) ⟨none, none, none⟩ = ⟨1, 0, 0, 1, 0, 0⟩ ∧
    (⟨1, 0, 0, 1, 0, 0⟩ : Matrix) ≠ ⟨2, 0, 0, 2, 0, 0⟩ := by
  refine ⟨rfl, rfl, fun h => ?_⟩
  have : (1 : ℝ) = 2 := congrArg Matrix.m11 h
  norm_num at this

/-- C5 amended: `area`, `perimeter`, `centroid`, `transform`, `createSquare`
and `createTriangle` try the loaded performance backend first on each call
and fall back to the reference implementation exactly when that call throws;
`createMatrix`, `createCircle` and `createRectangle` never consult the
backend — their results are the reference/pure computation regardless of
the loaded module. -/
theorem facade_dispatch (b : WasmBackend) :
    (∀ p v, b.calculate_area p = .ok v → CadSdk.area (some b) p = v) ∧
    (∀ p e, b.calculate_area p = .error e → CadSdk.area (some b) p = GeometryJS.area p) ∧
    (∀ p v, b.calculate_perimeter p = .ok v → CadSdk.perimeter (some b) p = v) ∧
    (∀ p e, b.calculate_perimeter p = .error e →
      CadSdk.perimeter (some b) p = GeometryJS.perimeter p) ∧
    (∀ p v, b.calculate_centroid p = .ok v → CadSdk.centroid (some b) p = v) ∧
    (∀ p e, b.calculate_centroid p = .error e →
      CadSdk.centroid (some b) p = GeometryJS.centroid p) ∧
    (∀ p m v, b.transform_polygon p m = .ok v → CadSdk.transform (some b) p m = v) ∧
    (∀ p m e, b.transform_polygon p m = .error e →
      CadSdk.transform (some b) p m = GeometryJS.transform p m) ∧
    (∀ s v, b.create_square s = .ok v → CadSdk.createSquare (some b) s = v) ∧
    (∀ s e, b.create_square s = .error e →
      CadSdk.createSquare (some b) s = GeometryJS.createSquare s) ∧
    (∀ s t v, b.create_triangle s t = .ok v → CadSdk.createTriangle (some b) s t = v) ∧
    (∀ s t e, b.create_triangle s t = .error e →
      CadSdk.createTriangle (some b) s t = GeometryJS.createTriangle s t) ∧
    (∀ o, CadSdk.createMatrix (some b) o = GeometryJS.createMatrix o) ∧
    (∀ c r n, CadSdk.createCircle (some b) c r n = CadSdk.createCircle none c r n) ∧
    (∀ w h, CadSdk.createRectangle (some b) w h = CadSdk.createRectangle none w h) := by
  refine ⟨?_, ?_, ?_, ?_, ?_, ?_, ?_, ?_, ?_, ?_, ?_, ?_, ?_, ?_, ?_⟩ <;>
    intros <;>
    simp_all [CadSdk.area, CadSdk.perimeter, CadSdk.centroid, CadSdk.transform,
      CadSdk.createSquare, CadSdk.createTriangle, CadSdk.createMatrix,
      CadSdk.createCircle, CadSdk.createRectangle]

/-- C5 amended witness: the dispatch theorem applied to the all-succeeding
and the all-throwing backend on concrete inputs. -/
theorem facade_dispatch_witness :
    CadSdk.area (some loudBackend) ⟨[]⟩ = 42 ∧
    CadSdk.perimeter (some failingBackend) ⟨[]⟩ = GeometryJS.perimeter ⟨[]⟩ :=
  ⟨(facade_dispatch loudBackend).1 ⟨[]⟩ 42 rfl,
   (facade_dispatch failingBackend).2.2.2.1 ⟨[]⟩ "boom" rfl⟩

/-- C6: `isPointInPolygon` implements the even-odd ray-casting rule — the
inside flag is toggled exactly on the edges `(i, j = i-1 mod N)` whose
crossing condition holds (the horizontal ray at `point.y` separates the
endpoints' y-values strictly on one side and `point.x` is left of the
edge's x-intersection), so the result is the parity of the crossing count;
and every polygon with fewer than 3 vertices yields `false`. -/
theorem pointInPolygon_evenOdd (p : Point) (vs : List Point) :
    isPointInPolygon p vs = decide (Odd (crossingCount p vs)) ∧
    (vs.length < 3 → isPointInPolygon p vs = false) := by
  refine ⟨isPointInPolygon_eq_parity p vs, fun h => ?_⟩
  rw [isPointInPolygon_eq_parity]
  match vs with
  | [] => simp [crossingCount]
  | [a] =>
    simp [crossingCount, edgeCrosses, prevIdx, List.range_succ, List.filter,
      Bool.not_beq_self]
  | [a, b] =>
    have hsymm := edgeCrosses_symm p b a
    cases hc : edgeCrosses p a b <;>
      simp [crossingCount, List.range_succ, prevIdx, hc, hc ▸ hsymm, Nat.odd_iff]
  | a :: b :: c :: t =>
    exfalso
    simp at h
    omega

/-- C6 witness: the theorem applied to a two-vertex polygon (degenerate,
inside test returns `false`) and, through the parity form, to a unit square
containing the origin-adjacent interior point `(1/2, 1/2)`. -/
theorem pointInPolygon_evenOdd_witness :
    isPointInPolygon ⟨2, 7⟩ [⟨0, 0⟩, ⟨1, 0⟩] = false :=
  (pointInPolygon_evenOdd ⟨2, 7⟩ [⟨0, 0⟩, ⟨1, 0⟩]).2 (by simp)

/-- C8: in a scale drag whose captured `initialScaleDistance` (pointer
distance from the shape's translate point at pointer-down) is positive, a
pointer-move sets both scale axes to
`clamp(currentDistance / initialScaleDistance, 0.1, 5.0)` where
`currentDistance` is the pointer's distance from the translate point. -/
theorem scaleMove_uniform_clamp (t : TransformParams) (downPos pointer : Point)
    (h : 0 < initialScaleDistance downPos t.translate) :
    (scaleMoveUpdate t pointer (initialScaleDistance downPos t.translate)).scale =
      ⟨max 0.1 (min 5.0
          (Real.sqrt ((pointer.x - t.translate.x) ^ 2 + (pointer.y - t.translate.y) ^ 2)
            / initialScaleDistance downPos t.translate)),
        max 0.1 (min 5.0
          (Real.sqrt ((pointer.x - t.translate.x) ^ 2 + (pointer.y - t.translate.y) ^ 2)
            / initialScaleDistance downPos t.translate))⟩ := by
  rw [scaleMoveUpdate]
  dsimp only
  rw [if_neg (ne_of_gt h)]

/-- C8 witness: a scale session started at distance 50 from the center;
moving the pointer to distance 150 yields the uniform factor
`clamp(150/50, 0.1, 5.0) = 3` on both axes. -/
theorem scaleMove_uniform_clamp_witness :
    0 < initialScaleDistance ⟨50, 0⟩ (⟨⟨0, 0⟩, 0, ⟨1, 1⟩⟩ : TransformParams).translate ∧
    (scaleMoveUpdate ⟨⟨0, 0⟩, 0, ⟨1, 1⟩⟩ ⟨150, 0⟩
        (initialScaleDistance ⟨50, 0⟩ ⟨0, 0⟩)).scale = ⟨3, 3⟩ := by
  have h50 : initialScaleDistance ⟨50, 0⟩ (⟨⟨0, 0⟩, 0, ⟨1, 1⟩⟩ : TransformParams).translate
      = 50 := by
    rw [initialScaleDistance]
    norm_num
    rw [show (2500 : ℝ) = 50 ^ 2 by norm_num, Real.sqrt_sq (by norm_num : (0:ℝ) ≤ 50)]
  have hpos : 0 < initialScaleDistance ⟨50, 0⟩
      (⟨⟨0, 0⟩, 0, ⟨1, 1⟩⟩ : TransformParams).translate := by
    rw [h50]; norm_num
  refine ⟨hpos, ?_⟩
  rw [scaleMove_uniform_clamp ⟨⟨0, 0⟩, 0, ⟨1, 1⟩⟩ ⟨50, 0⟩ ⟨150, 0⟩ hpos]
  have : (⟨⟨0, 0⟩, 0, ⟨1, 1⟩⟩ : TransformParams).translate = ⟨0, 0⟩ := rfl
  rw [this] at h50 ⊢
  norm_num [h50]
  rw [show Real.sqrt 22500 = 150 from by
      rw [show (22500 : ℝ) = 150 ^ 2 by norm_num, Real.sqrt_sq (by norm_num : (0:ℝ) ≤ 150)]]
  rw [show (150 : ℝ) / 50 = 3 by norm_num,
    min_eq_right (by norm_num : (3:ℝ) ≤ 5), max_eq_right (by norm_num : (1:ℝ)/10 ≤ 3)]

/-- C10: when the scale session starts with the pointer exactly at the
shape's translate point, the captured `initialScaleDistance` is 0 and the
pointer-move handler substitutes the fixed reference distance 30, producing
the uniform factor `clamp(currentDistance / 30, 0.1, 5.0)` on both axes. -/
theorem scaleMove_zero_initial (t : TransformParams) (pointer : Point) :
    initialScaleDistance t.translate t.translate = 0 ∧
    (scaleMoveUpdate t pointer (initialScaleDistance t.translate t.translate)).scale =
      ⟨max 0.1 (min 5.0
          (Real.sqrt ((pointer.x - t.translate.x) ^ 2 + (pointer.y - t.translate.y) ^ 2) / 30)),
        max 0.1 (min 5.0
          (Real.sqrt ((pointer.x - t.translate.x) ^ 2 + (pointer.y - t.translate.y) ^ 2) / 30))⟩ := by
  have h0 : initialScaleDistance t.translate t.translate = 0 := by
    simp [initialScaleDistance]
  refine ⟨h0, ?_⟩
  rw [h0, scaleMoveUpdate]
  dsimp only
  rw [if_pos rfl]

/-- A concrete canvas shape: a size-60 square at translate `(100,100)`,
rotation `0`, scale `(1,1)`. -/
def demoSquare : CanvasShape :=
  { kind := .square, size := 60, transform := ⟨⟨100, 100⟩, 0, ⟨1, 1⟩⟩ }

/-- The rotated-scaled local polygon of `demoSquare`. -/
theorem demoSquare_scaledRotated :
    scaledRotated demoSquare = [⟨-30, -30⟩, ⟨30, -30⟩, ⟨30, 30⟩, ⟨-30, 30⟩] := by
  simp [scaledRotated, getShapePolygon, demoSquare]
  norm_num

/-- Bounding box of `demoSquare`'s rotated-scaled polygon. -/
theorem demoSquare_bounds :
    maxXOf (scaledRotated demoSquare) = 30 ∧ minXOf (scaledRotated demoSquare) = -30 ∧
    maxYOf (scaledRotated demoSquare) = 30 ∧ minYOf (scaledRotated demoSquare) = -30 := by
  rw [demoSquare_scaledRotated]
  refine ⟨?_, ?_, ?_, ?_⟩ <;> norm_num [maxXOf, minXOf, maxYOf, minYOf, max_def, min_def]

/-- The select-tool update of `demoSquare` for a pointer at the origin with
zero anchor offset on an 800×600 canvas: the candidate translate `(0,0)` is
clamped to `(10,10)`. -/
theorem demoSquare_selectMove :
    selectMoveUpdate demoSquare 800 600 ⟨0, 0⟩ ⟨0, 0⟩ = ⟨⟨10, 10⟩, 0, ⟨1, 1⟩⟩ := by
  obtain ⟨hmx, hnx, hmy, hny⟩ := demoSquare_bounds
  rw [selectMoveUpdate]
  dsimp only
  rw [hmx, hnx, hmy, hny]
  show ({ demoSquare.transform with translate := _ } : TransformParams) = _
  norm_num [demoSquare, min_def, max_def]

/-- C9 counterexample: with the select tool on `demoSquare` (an
origin-centered square of side 60) on an 800×600 canvas, a pointer-move with
candidate translate `(0,0)` is clamped to translate `(10,10)` — yet the
shape's first world vertex then sits at x = -20 < 10, outside the
margin-shrunk viewport, because the clamp constrains the translate point,
not the axis-aligned bounding box. -/
theorem selectMove_aabb_escapes_margin :
    (selectMoveUpdate demoSquare 800 600 ⟨0, 0⟩ ⟨0, 0⟩).translate = ⟨10, 10⟩ ∧
    ((worldPolygon
        { demoSquare with
          transform := selectMoveUpdate demoSquare 800 600 ⟨0, 0⟩ ⟨0, 0⟩ }).headD
      default).x < 10 := by
  rw [demoSquare_selectMove]
  refine ⟨rfl, ?_⟩
  have : ({ demoSquare with transform := (⟨⟨10, 10⟩, 0, ⟨1, 1⟩⟩ : TransformParams) }
      : CanvasShape)
      = { kind := .square, size := 60, transform := ⟨⟨10, 10⟩, 0, ⟨1, 1⟩⟩ } := rfl
  rw [this]
  norm_num [worldPolygon, getShapePolygon]

/-- C9 amended: the select-tool pointer-move takes the candidate translate
`pointerPos - anchorOffset` and clamps it componentwise into
`[margin, canvasSize - shapeExtent - margin]` (margin 10, extent the
rotated-scaled bounding-box width/height): whenever that interval is
nonempty, the resulting translate point — not the whole bounding box, which
can still cross the margin for these origin-centered shapes — lies inside
it, and equals the clamp of the candidate. -/
theorem selectMove_clamps_translate (shape : CanvasShape) (W H : ℝ)
    (pointer dragStart : Point)
    (hw : (10:ℝ) ≤ W - (maxXOf (scaledRotated shape) - minXOf (scaledRotated shape)) - 10)
    (hh : (10:ℝ) ≤ H - (maxYOf (scaledRotated shape) - minYOf (scaledRotated shape)) - 10) :
    (selectMoveUpdate shape W H pointer dragStart).translate.x
        = max 10 (min (W - (maxXOf (scaledRotated shape) - minXOf (scaledRotated shape)) - 10)
            (pointer.x - dragStart.x)) ∧
    (selectMoveUpdate shape W H pointer dragStart).translate.y
        = max 10 (min (H - (maxYOf (scaledRotated shape) - minYOf (scaledRotated shape)) - 10)
            (pointer.y - dragStart.y)) ∧
    10 ≤ (selectMoveUpdate shape W H pointer dragStart).translate.x ∧
    (selectMoveUpdate shape W H pointer dragStart).translate.x
        ≤ W - (maxXOf (scaledRotated shape) - minXOf (scaledRotated shape)) - 10 ∧
    10 ≤ (selectMoveUpdate shape W H pointer dragStart).translate.y ∧
    (selectMoveUpdate shape W H pointer dragStart).translate.y
        ≤ H - (maxYOf (scaledRotated shape) - minYOf (scaledRotated shape)) - 10 := by
  refine ⟨rfl, rfl, le_max_left _ _, max_le hw (min_le_left _ _),
    le_max_left _ _, max_le hh (min_le_left _ _)⟩

/-- C9 amended witness: the clamp theorem applied to `demoSquare` on an
800×600 canvas (clamp windows `[10, 730]` and `[10, 530]`, both nonempty),
with the candidate translate `(0,0)`. -/
theorem selectMove_clamps_translate_witness :
    10 ≤ (selectMoveUpdate demoSquare 800 600 ⟨0, 0⟩ ⟨0, 0⟩).translate.x ∧
    (selectMoveUpdate demoSquare 800 600 ⟨0, 0⟩ ⟨0, 0⟩).translate.x
      ≤ 800 - (maxXOf (scaledRotated demoSquare) - minXOf (scaledRotated demoSquare)) - 10 := by
  obtain ⟨hmx, hnx, hmy, hny⟩ := demoSquare_bounds
  have h := selectMove_clamps_translate demoSquare 800 600 ⟨0, 0⟩ ⟨0, 0⟩
    (by rw [hmx, hnx]; norm_num) (by rw [hmy, hny]; norm_num)
  exact ⟨h.2.2.1, h.2.2.2.1⟩

end Cad
